import Mathlib

/-!
Verification of the gesture-classification and selection logic of the
solar-system repository.

Embedding conventions, chosen to keep every definition executable:

* Coordinates are rationals.  The source computes 2D distances as
  Math.sqrt(dx^2 + dy^2) and only ever compares them against nonnegative
  constant thresholds, and it returns velocity = Math.sqrt(vx^2 + vy^2).
  Since the square root is a strictly monotone bijection on the
  nonnegative reals, we carry the squared quantities instead
  (getDistSq, the velocitySq field) and compare them against the squared
  thresholds: d < t holds in the source exactly when getDistSq < t^2
  holds here, and two velocities are equal or ordered exactly when their
  squares are.  The squared thresholds appearing below are
  0.4^2 = 4/25, 0.25^2 = 1/16, 0.06^2 = 9/2500, 0.08^2 = 4/625,
  0.45^2 = 81/400, 0.1^2 = 1/100.

* GestureInterpreter.process can raise a JavaScript runtime error: the
  richest variant reads a variable distPinky that is defined nowhere in
  the file (a ReferenceError exactly when the first three conjuncts of
  the closed-fist guard hold, by short-circuit evaluation of the and
  operator), and every variant dereferences .x on landmarks[i] without
  checking the length of the landmark array (a TypeError when the frame
  has too few points, or when an earlier short frame sits in the
  history).  We model process in the Except monad: Except.error carries
  the classifier state as mutated before the throw (the history push
  happens first in the source), Except.ok carries the returned
  GestureData together with the updated state.

* GI0 is the interpreter of the richest variant (history capacity 10,
  point gesture, the distPinky gap); GI2 is the interpreter variant that
  the shipped main module uses (capacity 10, no point gesture,
  thresholds 0.08 / 0.25 / 0.45).

* The App controller (main module of the richer variant) is embedded as
  pure state-transition functions.  The raycast against planet meshes,
  the camera length computation and the trigonometry of the orbit step
  live in external collaborators (three.js, gsap); they enter the model
  as parameters: rayHit is the nearest planet returned by the raycast
  query, distFactor is camera.position.length() * 0.005, and the camera
  commands issued through gsap.to are recorded in a CamEffects record
  (for the orbit command we record the issued angle, whose cosine and
  sine the library would then apply).
-/

/-- A 3D point (also used for the delta vectors), matching the Point3D
interface of the source: fields x, y, z. -/
structure Point3 where
  x : ℚ
  y : ℚ
  z : ℚ
deriving DecidableEq, Repr

/-- One detection frame for one hand: the ordered landmark array
(index 0 = wrist, 4 = thumb tip, 8 = index tip, 12 = middle tip,
16 = ring tip). -/
abbrev Frame := List Point3

/-- The discrete gesture labels of the richest variant. -/
inductive GestureType where
  | pinch
  | pan
  | rotate
  | point
deriving DecidableEq, Repr

/-- The GestureData record returned by process.  The source field
velocity holds Math.sqrt of the value stored here in velocitySq, see
the module docstring. -/
structure GestureData where
  type : Option GestureType
  delta : Point3
  velocitySq : ℚ
deriving DecidableEq, Repr

/-- Classifier state: the bounded frame history and the persistent
exponentially smoothed delta vector. -/
structure IState where
  history : List Frame
  smoothedDeltas : Point3
deriving DecidableEq, Repr

/-- The state of a freshly constructed GestureInterpreter. -/
def initIState : IState := ⟨[], ⟨0, 0, 0⟩⟩

/-- The smoothing constant of the source (this.smoothing = 0.5). -/
def smoothing : ℚ := 1 / 2

/-- Squared 2D distance.  The source getDist returns the square root of
this value; see the module docstring for the transfer of comparisons. -/
def getDistSq (p1 p2 : Point3) : ℚ :=
  (p1.x - p2.x) ^ 2 + (p1.y - p2.y) ^ 2

/-- applySmoothing of the source: per-axis exponential smoothing
sm * (1 - smoothing) + raw * smoothing, returning the new vector
(the source mutates this.smoothedDeltas in place). -/
def applySmoothing (sm raw : Point3) : Point3 :=
  ⟨sm.x * (1 - smoothing) + raw.x * smoothing,
   sm.y * (1 - smoothing) + raw.y * smoothing,
   sm.z * (1 - smoothing) + raw.z * smoothing⟩

/-- getMovementDelta of the source: zero when the history has fewer
than two frames, otherwise the componentwise difference of landmark i
between the last and the second-to-last frame.  A frame in the history
missing landmark i makes the source throw a TypeError (undefined .x),
modeled as none. -/
def getMovementDelta (history : List Frame) (i : ℕ) : Option Point3 :=
  if history.length < 2 then some ⟨0, 0, 0⟩
  else
    match history[history.length - 1]?, history[history.length - 2]? with
    | some currFrame, some prevFrame =>
      match currFrame[i]?, prevFrame[i]? with
      | some curr, some prev =>
        some ⟨curr.x - prev.x, curr.y - prev.y, curr.z - prev.z⟩
      | _, _ => none
    | _, _ => none

/-- History update of process: push the frame, then shift the oldest
frame out when the length exceeds the capacity 10. -/
def trimPush (h : List Frame) (f : Frame) : List Frame :=
  if (h ++ [f]).length > 10 then (h ++ [f]).tail else h ++ [f]

/-- The absent-hand return value {type: null, delta: 0, velocity: 0}. -/
def noneEvent : GestureData := ⟨none, ⟨0, 0, 0⟩, 0⟩

namespace GI0

/-- process of the richest GestureInterpreter variant (the one with the
point gesture).  Branches, in source order: point
(distIndex > 0.4 and distMiddle < 0.25 and distRing < 0.25), pinch
(pinchDist < 0.06), closed fist (distIndex, distMiddle, distRing all
below 0.25 - at which point the source reads the undefined distPinky
and raises a ReferenceError), open palm (all three above 0.4), and the
fallthrough, which returns type null with velocity hardcoded to 0. -/
def process (s : IState) (multiHandLandmarks : Option (List Frame)) :
    Except IState (GestureData × IState) :=
  match multiHandLandmarks with
  | none => .ok (noneEvent, s)
  | some [] => .ok (noneEvent, s)
  | some (landmarks :: _) =>
    let history := trimPush s.history landmarks
    match landmarks[4]?, landmarks[8]?, landmarks[12]?, landmarks[16]?,
          landmarks[0]? with
    | some thumb, some idx, some middle, some ring, some wrist =>
      match getMovementDelta history 0 with
      | some rawDelta =>
        let distIndexSq := getDistSq idx wrist
        let distMiddleSq := getDistSq middle wrist
        let distRingSq := getDistSq ring wrist
        let pinchDistSq := getDistSq thumb idx
        let velocitySq := rawDelta.x ^ 2 + rawDelta.y ^ 2
        if distIndexSq > 4/25 ∧ distMiddleSq < 1/16 ∧ distRingSq < 1/16 then
          .ok (⟨some .point, ⟨0, 0, 0⟩, velocitySq⟩, ⟨history, s.smoothedDeltas⟩)
        else if pinchDistSq < 9/2500 then
          match getMovementDelta history 8 with
          | some d8 =>
            .ok (⟨some .pinch, ⟨0, 0, d8.y⟩, velocitySq⟩,
                 ⟨history, applySmoothing s.smoothedDeltas d8⟩)
          | none => .error ⟨history, s.smoothedDeltas⟩
        else if distIndexSq < 1/16 ∧ distMiddleSq < 1/16 ∧ distRingSq < 1/16 then
          .error ⟨history, s.smoothedDeltas⟩
        else if distIndexSq > 4/25 ∧ distMiddleSq > 4/25 ∧ distRingSq > 4/25 then
          .ok (⟨some .rotate, applySmoothing s.smoothedDeltas rawDelta, velocitySq⟩,
               ⟨history, applySmoothing s.smoothedDeltas rawDelta⟩)
        else
          .ok (⟨none, ⟨0, 0, 0⟩, 0⟩, ⟨history, s.smoothedDeltas⟩)
      | none => .error ⟨history, s.smoothedDeltas⟩
    | _, _, _, _, _ => .error ⟨history, s.smoothedDeltas⟩

end GI0

namespace GI2

/-- process of the GestureInterpreter variant used by the richer main
module: pinch (pinchDist < 0.08), fist pan (index, middle, ring wrist
distances below 0.25), open palm rotate (index and middle wrist
distances above 0.45), fallthrough null with velocity hardcoded 0. -/
def process (s : IState) (multiHandLandmarks : Option (List Frame)) :
    Except IState (GestureData × IState) :=
  match multiHandLandmarks with
  | none => .ok (noneEvent, s)
  | some [] => .ok (noneEvent, s)
  | some (landmarks :: _) =>
    let history := trimPush s.history landmarks
    match landmarks[4]?, landmarks[8]?, landmarks[12]?, landmarks[16]?,
          landmarks[0]? with
    | some thumb, some idx, some middle, some ring, some wrist =>
      match getMovementDelta history 0 with
      | some rawDelta =>
        let pinchDistSq := getDistSq thumb idx
        let indexWristSq := getDistSq idx wrist
        let middleWristSq := getDistSq middle wrist
        let ringWristSq := getDistSq ring wrist
        let velocitySq := rawDelta.x ^ 2 + rawDelta.y ^ 2
        if pinchDistSq < 4/625 then
          match getMovementDelta history 8 with
          | some d8 =>
            .ok (⟨some .pinch, ⟨0, 0, d8.y⟩, velocitySq⟩,
                 ⟨history, applySmoothing s.smoothedDeltas d8⟩)
          | none => .error ⟨history, s.smoothedDeltas⟩
        else if indexWristSq < 1/16 ∧ middleWristSq < 1/16 ∧ ringWristSq < 1/16 then
          .ok (⟨some .pan, applySmoothing s.smoothedDeltas rawDelta, velocitySq⟩,
               ⟨history, applySmoothing s.smoothedDeltas rawDelta⟩)
        else if indexWristSq > 81/400 ∧ middleWristSq > 81/400 then
          .ok (⟨some .rotate, applySmoothing s.smoothedDeltas rawDelta, velocitySq⟩,
               ⟨history, applySmoothing s.smoothedDeltas rawDelta⟩)
        else
          .ok (⟨none, ⟨0, 0, 0⟩, 0⟩, ⟨history, s.smoothedDeltas⟩)
      | none => .error ⟨history, s.smoothedDeltas⟩
    | _, _, _, _, _ => .error ⟨history, s.smoothedDeltas⟩

end GI2

namespace App

/-- Controller state of the App class of the richer main module:
hovered planet with the dwell start timestamp, selected (focused)
planet, simulation time scale, and the visibility of the info panel
and the tooltip (planets are identified by an index into
solarSystem.planets). -/
structure AppState where
  hoveredPlanet : Option Nat
  hoverStartTime : Int
  selectedPlanet : Option Nat
  timeScale : ℚ
  infoPanelHidden : Bool
  tooltipHidden : Bool
deriving DecidableEq, Repr

/-- focusOnPlanet: select the planet, slow the simulation to 0.02,
hide the tooltip, show the info panel. -/
def focusOnPlanet (s : AppState) (planet : Nat) : AppState :=
  { s with selectedPlanet := some planet, timeScale := 1/50,
           tooltipHidden := true, infoPanelHidden := false }

/-- exitFocus: clear the selection, restore time scale 2.5, hide the
info panel.  Reached from the DISENGAGE button (the explicit exit
action) and from the two disqualifying gesture checks. -/
def exitFocus (s : AppState) : AppState :=
  { s with selectedPlanet := none, timeScale := 5/2, infoPanelHidden := true }

/-- updateSelection for a frame with a detected hand.  rayHit is the
nearest planet intersected by the ray cast from the index-tip pointer
(none when the ray misses every planet); now is Date.now().  On a hit:
show the tooltip, restart the dwell timer when the hovered planet
changed, otherwise focus once the dwell time strictly exceeds 1200 ms
and the planet is not already selected.  On a miss: hide the tooltip
and clear the hover; the selection is untouched. -/
def updateSelection (s : AppState) (rayHit : Option Nat) (now : Int) : AppState :=
  match rayHit with
  | some planet =>
    let s1 : AppState := { s with tooltipHidden := false }
    if s1.hoveredPlanet ≠ some planet then
      { s1 with hoveredPlanet := some planet, hoverStartTime := now }
    else if now - s1.hoverStartTime > 1200 ∧ s1.selectedPlanet ≠ some planet then
      focusOnPlanet s1 planet
    else s1
  | none => { s with tooltipHidden := true, hoveredPlanet := none }

/-- The camera commands a frame hands to gsap: the pinch zoom target
(z, x, y), the pan translation target (x, y), the orbit angle of the
rotate step, and whether the field of view is eased back to its
baseline. -/
structure CamEffects where
  zoomCmd : Option (ℚ × ℚ × ℚ)
  panCmd : Option (ℚ × ℚ)
  orbitAngleCmd : Option ℚ
  fovRelax : Bool
deriving DecidableEq, Repr

/-- No camera command issued. -/
def noEffects : CamEffects := ⟨none, none, none, false⟩

/-- handleGestures of the richer main module.  It first runs
updateSelection, then dispatches on the gesture type: pinch issues the
zoom command and exits focus when delta.z > 0.05 with a planet
selected; pan issues the translation command (with no suppression
check) and exits focus when the velocity exceeds 0.1; rotate issues
the orbit command only when no planet is selected; every other case
relaxes the field of view.  cam is camera.position and distFactor is
camera.position.length() * 0.005. -/
def handleGestures (s : AppState) (cam : Point3) (distFactor : ℚ)
    (data : GestureData) (rayHit : Option Nat) (now : Int) :
    AppState × CamEffects :=
  let s1 := updateSelection s rayHit now
  match data.type with
  | some .pinch =>
    let zoomAmount := data.delta.z * distFactor * 250
    (if data.delta.z > 1/20 ∧ s1.selectedPlanet.isSome then exitFocus s1 else s1,
     { noEffects with zoomCmd := some (cam.z + zoomAmount,
         cam.x * (1 + data.delta.z * (1/10)),
         cam.y * (1 + data.delta.z * (1/10))) })
  | some .pan =>
    (if data.velocitySq > 1/100 ∧ s1.selectedPlanet.isSome then exitFocus s1 else s1,
     { noEffects with panCmd := some (cam.x + -data.delta.x * distFactor * 1000,
         cam.y + data.delta.y * distFactor * 1000) })
  | some .rotate =>
    if s1.selectedPlanet = none then
      (s1, { noEffects with orbitAngleCmd := some (-data.delta.x * (2/25)) })
    else
      (s1, { noEffects with fovRelax := true })
  | _ => (s1, { noEffects with fovRelax := true })

/-- One detection callback: either no hand was detected, or a hand was
detected and handleGestures runs with the GestureData computed by
process, the raycast result and the clock reading of that frame. -/
inductive FrameInput where
  | noHands
  | hands (data : GestureData) (rayHit : Option Nat) (now : Int)
      (cam : Point3) (distFactor : ℚ)

/-- handleResults: with no detected hand only the tracking indicator
and the tooltip are touched (the selection survives); otherwise
handleGestures runs. -/
def handleResults (s : AppState) (inp : FrameInput) : AppState × CamEffects :=
  match inp with
  | .noHands => ({ s with tooltipHidden := true }, noEffects)
  | .hands data rayHit now cam distFactor =>
    handleGestures s cam distFactor data rayHit now

/-- The two automatic focus disqualifiers of handleGestures: a strong
zoom-out pinch (delta.z > 0.05) or a fast pan (velocity > 0.1, squared
here). -/
def disqualifier (data : GestureData) : Prop :=
  (data.type = some .pinch ∧ data.delta.z > 1/20) ∨
  (data.type = some .pan ∧ data.velocitySq > 1/100)

instance (data : GestureData) : Decidable (disqualifier data) := by
  unfold disqualifier; infer_instance

end App

/-- A 21-point frame with the five landmarks the classifier reads
placed at their anatomical indices (0 wrist, 4 thumb tip, 8 index tip,
12 middle tip, 16 ring tip) and the wrist point as filler elsewhere. -/
def mkFrame (w t i m r : Point3) : Frame :=
  [w, w, w, w, t, w, w, w, i, w, w, w, m, w, w, w, r, w, w, w, w]

theorem trimPush_eq_append (h : List Frame) (f : Frame) :
    ∃ pre, trimPush h f = pre ++ [f] := by
  unfold trimPush
  split
  · rcases h with _ | ⟨x, h2⟩
    · simp_all
    · exact ⟨h2, by simp⟩
  · exact ⟨h, rfl⟩

theorem process0_ok_spec (s : IState) (mh : Option (List Frame)) (gd : GestureData)
    (s2 : IState) (hok : GI0.process s mh = .ok (gd, s2)) :
    ((mh = none ∨ mh = some []) ∧ gd.type = none ∧ gd.velocitySq = 0 ∧
      gd.delta = ⟨0, 0, 0⟩ ∧ s2 = s) ∨
    (∃ lm rest rd, mh = some (lm :: rest) ∧ s2.history = trimPush s.history lm ∧
      getMovementDelta s2.history 0 = some rd ∧
      ((gd.type = none ∧ gd.velocitySq = 0 ∧ gd.delta = ⟨0, 0, 0⟩ ∧
          s2.smoothedDeltas = s.smoothedDeltas) ∨
       (gd.type = some .point ∧ gd.velocitySq = rd.x ^ 2 + rd.y ^ 2 ∧
          gd.delta = ⟨0, 0, 0⟩ ∧ s2.smoothedDeltas = s.smoothedDeltas) ∨
       (∃ d8, gd.type = some .pinch ∧ getMovementDelta s2.history 8 = some d8 ∧
          gd.velocitySq = rd.x ^ 2 + rd.y ^ 2 ∧ gd.delta = ⟨0, 0, d8.y⟩ ∧
          s2.smoothedDeltas = applySmoothing s.smoothedDeltas d8) ∨
       (gd.type = some .rotate ∧ gd.velocitySq = rd.x ^ 2 + rd.y ^ 2 ∧
          gd.delta = applySmoothing s.smoothedDeltas rd ∧
          s2.smoothedDeltas = applySmoothing s.smoothedDeltas rd))) := by
  rcases mh with _ | hands
  · simp only [GI0.process] at hok
    injection hok with h
    injection h with hgd hs2
    subst hgd; subst hs2
    left
    exact ⟨Or.inl rfl, rfl, rfl, rfl, rfl⟩
  · rcases hands with _ | ⟨lm, rest⟩
    · simp only [GI0.process] at hok
      injection hok with h
      injection h with hgd hs2
      subst hgd; subst hs2
      left
      exact ⟨Or.inr rfl, rfl, rfl, rfl, rfl⟩
    · simp only [GI0.process] at hok
      split at hok
      case _ thumb idx middle ring wrist h4 h8 h12 h16 h0 =>
        split at hok
        case _ rawDelta hmv =>
          split at hok
          case isTrue hpt =>
            injection hok with h
            injection h with hgd hs2
            subst hgd; subst hs2
            right
            exact ⟨lm, rest, rawDelta, rfl, rfl, hmv,
              Or.inr (Or.inl ⟨rfl, rfl, rfl, rfl⟩)⟩
          case isFalse hpt =>
            split at hok
            case isTrue hpi =>
              split at hok
              case _ d8 hmv8 =>
                injection hok with h
                injection h with hgd hs2
                subst hgd; subst hs2
                right
                exact ⟨lm, rest, rawDelta, rfl, rfl, hmv,
                  Or.inr (Or.inr (Or.inl ⟨d8, rfl, hmv8, rfl, rfl, rfl⟩))⟩
              case _ hmv8 => exact absurd hok (by simp)
            case isFalse hpi =>
              split at hok
              case isTrue hfist => exact absurd hok (by simp)
              case isFalse hfist =>
                split at hok
                case isTrue hpalm =>
                  injection hok with h
                  injection h with hgd hs2
                  subst hgd; subst hs2
                  right
                  exact ⟨lm, rest, rawDelta, rfl, rfl, hmv,
                    Or.inr (Or.inr (Or.inr ⟨rfl, rfl, rfl, rfl⟩))⟩
                case isFalse hpalm =>
                  injection hok with h
                  injection h with hgd hs2
                  subst hgd; subst hs2
                  right
                  exact ⟨lm, rest, rawDelta, rfl, rfl, hmv,
                    Or.inl ⟨rfl, rfl, rfl, rfl⟩⟩
        case _ hmv => exact absurd hok (by simp)
      case _ a b c d e h => exact absurd hok (by simp)

theorem process2_ok_spec (s : IState) (mh : Option (List Frame)) (gd : GestureData)
    (s2 : IState) (hok : GI2.process s mh = .ok (gd, s2)) :
    ((mh = none ∨ mh = some []) ∧ gd.type = none ∧ gd.velocitySq = 0 ∧
      gd.delta = ⟨0, 0, 0⟩ ∧ s2 = s) ∨
    (∃ lm rest rd, mh = some (lm :: rest) ∧ s2.history = trimPush s.history lm ∧
      getMovementDelta s2.history 0 = some rd ∧
      ((gd.type = none ∧ gd.velocitySq = 0 ∧ gd.delta = ⟨0, 0, 0⟩ ∧
          s2.smoothedDeltas = s.smoothedDeltas) ∨
       (∃ d8, gd.type = some .pinch ∧ getMovementDelta s2.history 8 = some d8 ∧
          gd.velocitySq = rd.x ^ 2 + rd.y ^ 2 ∧ gd.delta = ⟨0, 0, d8.y⟩ ∧
          s2.smoothedDeltas = applySmoothing s.smoothedDeltas d8) ∨
       ((gd.type = some .pan ∨ gd.type = some .rotate) ∧
          gd.velocitySq = rd.x ^ 2 + rd.y ^ 2 ∧
          gd.delta = applySmoothing s.smoothedDeltas rd ∧
          s2.smoothedDeltas = applySmoothing s.smoothedDeltas rd))) := by
  rcases mh with _ | hands
  · simp only [GI2.process] at hok
    injection hok with h
    injection h with hgd hs2
    subst hgd; subst hs2
    left
    exact ⟨Or.inl rfl, rfl, rfl, rfl, rfl⟩
  · rcases hands with _ | ⟨lm, rest⟩
    · simp only [GI2.process] at hok
      injection hok with h
      injection h with hgd hs2
      subst hgd; subst hs2
      left
      exact ⟨Or.inr rfl, rfl, rfl, rfl, rfl⟩
    · simp only [GI2.process] at hok
      split at hok
      case _ thumb idx middle ring wrist h4 h8 h12 h16 h0 =>
        split at hok
        case _ rawDelta hmv =>
          split at hok
          case isTrue hpi =>
            split at hok
            case _ d8 hmv8 =>
              injection hok with h
              injection h with hgd hs2
              subst hgd; subst hs2
              right
              exact ⟨lm, rest, rawDelta, rfl, rfl, hmv,
                Or.inr (Or.inl ⟨d8, rfl, hmv8, rfl, rfl, rfl⟩)⟩
            case _ hmv8 => exact absurd hok (by simp)
          case isFalse hpi =>
            split at hok
            case isTrue hfist =>
              injection hok with h
              injection h with hgd hs2
              subst hgd; subst hs2
              right
              exact ⟨lm, rest, rawDelta, rfl, rfl, hmv,
                Or.inr (Or.inr ⟨Or.inl rfl, rfl, rfl, rfl⟩)⟩
            case isFalse hfist =>
              split at hok
              case isTrue hpalm =>
                injection hok with h
                injection h with hgd hs2
                subst hgd; subst hs2
                right
                exact ⟨lm, rest, rawDelta, rfl, rfl, hmv,
                  Or.inr (Or.inr ⟨Or.inr rfl, rfl, rfl, rfl⟩)⟩
              case isFalse hpalm =>
                injection hok with h
                injection h with hgd hs2
                subst hgd; subst hs2
                right
                exact ⟨lm, rest, rawDelta, rfl, rfl, hmv,
                  Or.inl ⟨rfl, rfl, rfl, rfl⟩⟩
        case _ hmv => exact absurd hok (by simp)
      case _ a b c d e h => exact absurd hok (by simp)

theorem trimPush_pair (pre : List Frame) (f : Frame) :
    ∃ pre2, trimPush (pre ++ [f]) f = pre2 ++ [f, f] := by
  unfold trimPush
  split
  · rcases pre with _ | ⟨x, pre2⟩
    · simp_all
    · exact ⟨pre2, by simp⟩
  · exact ⟨pre, by simp⟩

theorem getMovementDelta_pair (pre : List Frame) (f : Frame) (i : ℕ) (d : Point3)
    (hd : getMovementDelta (pre ++ [f, f]) i = some d) : d = ⟨0, 0, 0⟩ := by
  unfold getMovementDelta at hd
  rw [if_neg (by simp)] at hd
  have hlen : (pre ++ [f, f]).length = pre.length + 2 := by simp
  have h1 : (pre ++ [f, f])[(pre ++ [f, f]).length - 1]? = some f := by
    rw [hlen]
    rw [List.getElem?_append_right (by omega)]
    have : pre.length + 2 - 1 - pre.length = 1 := by omega
    rw [this]
    rfl
  have h2 : (pre ++ [f, f])[(pre ++ [f, f]).length - 2]? = some f := by
    rw [hlen]
    rw [List.getElem?_append_right (by omega)]
    have : pre.length + 2 - 2 - pre.length = 0 := by omega
    rw [this]
    rfl
  rw [h1, h2] at hd
  dsimp only [] at hd
  rcases hfi : f[i]? with _ | p
  · rw [hfi] at hd
    simp at hd
  · rw [hfi] at hd
    simp at hd
    subst hd
    simp

/-- C1: a call to process with no detected hand (no landmark array, or an
empty one) returns the event with type null, zero delta and velocity 0,
and leaves the classifier state untouched: nothing is pushed to the
history and smoothedDeltas is not mutated. -/
theorem C1_absent_hand (s : IState) (mh : Option (List Frame))
    (h : mh = none ∨ mh = some []) :
    GI0.process s mh = .ok (⟨none, ⟨0, 0, 0⟩, 0⟩, s) := by
  rcases h with h | h <;> subst h <;> rfl

/-- Witness for C1 at a concrete input: the missing landmark array. -/
theorem C1_absent_hand_witness :
    GI0.process initIState none = .ok (⟨none, ⟨0, 0, 0⟩, 0⟩, initIState) :=
  C1_absent_hand initIState none (Or.inl rfl)

/-- C2 counterexample: one detected hand whose landmark array is empty is
not treated as an absent hand; process raises a TypeError (the undefined
landmark is dereferenced), modeled as Except.error, instead of returning
the ok event with type null that the claim requires. -/
theorem C2_counterexample :
    GI0.process initIState (some [[]]) = .error ⟨[[]], ⟨0, 0, 0⟩⟩ ∧
    (Except.error ⟨[[]], ⟨0, 0, 0⟩⟩ :
        Except IState (GestureData × IState)) ≠
      .ok (⟨none, ⟨0, 0, 0⟩, 0⟩, initIState) :=
  ⟨rfl, fun h => Except.noConfusion h⟩

/-- C2 amended: process validates only that multiHandLandmarks exists and
is nonempty.  A first-hand frame that lacks landmark 16 (in particular
any frame with at most 16 points) makes process throw rather than be
treated as absent-hand; the history has already been mutated when the
throw happens. -/
theorem C2_amended (s : IState) (hands : List Frame) (lm : Frame)
    (h16 : lm[16]? = none) :
    GI0.process s (some (lm :: hands)) =
      .error ⟨trimPush s.history lm, s.smoothedDeltas⟩ := by
  simp only [GI0.process]
  rcases e4 : lm[4]? with _ | t <;> rcases e8 : lm[8]? with _ | i <;>
    rcases e12 : lm[12]? with _ | m <;> rcases e0 : lm[0]? with _ | w <;>
    simp [e4, e8, e12, e0, h16]

/-- Witness for C2 amended at the empty frame. -/
theorem C2_amended_witness :
    GI0.process initIState (some [([] : Frame)]) =
      .error ⟨trimPush initIState.history [], initIState.smoothedDeltas⟩ :=
  C2_amended initIState [] [] rfl

/-- The frame of the first call of the C3 counterexample: a neutral pose
(index, middle and ring tips 0.3 from the wrist, thumb 0.2 from the
index tip) with the wrist at (-1/10, 0). -/
def c3f1 : Frame :=
  mkFrame ⟨-1/10, 0, 0⟩ ⟨2/5, 0, 0⟩ ⟨1/5, 0, 0⟩ ⟨1/5, 0, 0⟩ ⟨1/5, 0, 0⟩

/-- The frame of the second call of the C3 counterexample: the same pose
translated so that the wrist moved by (1/10, 0). -/
def c3f2 : Frame :=
  mkFrame ⟨0, 0, 0⟩ ⟨1/2, 0, 0⟩ ⟨3/10, 0, 0⟩ ⟨3/10, 0, 0⟩ ⟨3/10, 0, 0⟩

/-- C3 counterexample: a hand-present call classified as type null whose
wrist moved between the two most recent frames returns velocity 0 (the
fallthrough hardcodes it), although the squared magnitude of the wrist
finite-difference 2D delta is 1/100, not 0.  The first conjunct shows
the state of the second call is reached from a fresh classifier. -/
theorem C3_counterexample :
    GI0.process initIState (some [c3f1]) =
      .ok (⟨none, ⟨0, 0, 0⟩, 0⟩, ⟨[c3f1], ⟨0, 0, 0⟩⟩) ∧
    GI0.process ⟨[c3f1], ⟨0, 0, 0⟩⟩ (some [c3f2]) =
      .ok (⟨none, ⟨0, 0, 0⟩, 0⟩, ⟨[c3f1, c3f2], ⟨0, 0, 0⟩⟩) ∧
    getMovementDelta [c3f1, c3f2] 0 = some ⟨1/10, 0, 0⟩ ∧
    ((1 : ℚ)/10) ^ 2 + (0 : ℚ) ^ 2 ≠ 0 := by
  refine ⟨?_, ?_, ?_, by norm_num⟩ <;>
    norm_num [GI0.process, trimPush, getMovementDelta, getDistSq, mkFrame,
      c3f1, c3f2, initIState]

/-- C3 amended: the returned velocity equals the squared magnitude of the
wrist 2D finite-difference delta only for frames classified point, pinch
or rotate (the fist branch raises a ReferenceError); every call whose
returned type is null returns velocity 0 regardless of the wrist
motion. -/
theorem C3_amended (s : IState) (mh : Option (List Frame)) (gd : GestureData)
    (s2 : IState) (hok : GI0.process s mh = .ok (gd, s2)) :
    (gd.type = none → gd.velocitySq = 0) ∧
    (gd.type ≠ none →
      (getMovementDelta s2.history 0).map (fun rd => rd.x ^ 2 + rd.y ^ 2) =
        some gd.velocitySq) := by
  rcases process0_ok_spec s mh gd s2 hok with ⟨_, ht, hv, _, _⟩ |
    ⟨lm, rest, rd, _, _, hmv, hbr⟩
  · exact ⟨fun _ => hv, fun hne => absurd ht hne⟩
  · rcases hbr with ⟨ht, hv, _, _⟩ | ⟨ht, hv, _, _⟩ |
      ⟨d8, ht, _, hv, _, _⟩ | ⟨ht, hv, _, _⟩
    · exact ⟨fun _ => hv, fun hne => absurd ht hne⟩
    · refine ⟨fun h0 => ?_, fun _ => ?_⟩
      · rw [ht] at h0; cases h0
      · rw [hmv]; simp [hv]
    · refine ⟨fun h0 => ?_, fun _ => ?_⟩
      · rw [ht] at h0; cases h0
      · rw [hmv]; simp [hv]
    · refine ⟨fun h0 => ?_, fun _ => ?_⟩
      · rw [ht] at h0; cases h0
      · rw [hmv]; simp [hv]

/-- Witness for C3 amended: the second call of the counterexample run,
which has type null and velocity 0. -/
theorem C3_amended_witness :
    ((⟨none, ⟨0, 0, 0⟩, 0⟩ : GestureData).type = none →
      (⟨none, ⟨0, 0, 0⟩, 0⟩ : GestureData).velocitySq = 0) ∧
    ((⟨none, ⟨0, 0, 0⟩, 0⟩ : GestureData).type ≠ none →
      (getMovementDelta (⟨[c3f1, c3f2], ⟨0, 0, 0⟩⟩ : IState).history 0).map
          (fun rd => rd.x ^ 2 + rd.y ^ 2) =
        some (⟨none, ⟨0, 0, 0⟩, 0⟩ : GestureData).velocitySq) :=
  C3_amended ⟨[c3f1], ⟨0, 0, 0⟩⟩ (some [c3f2]) ⟨none, ⟨0, 0, 0⟩, 0⟩
    ⟨[c3f1, c3f2], ⟨0, 0, 0⟩⟩
    (by norm_num [GI0.process, trimPush, getMovementDelta, getDistSq, mkFrame,
      c3f1, c3f2])

/-- C10: every ok call of process that returns type pinch returns a delta
with x = 0 and y = 0 whose z component is the y component of the raw,
unsmoothed finite difference of the index tip (landmark 8) between the
two most recent frames of the updated history (getMovementDelta is that
raw difference by definition). -/
theorem C10_pinch_delta (s : IState) (mh : Option (List Frame))
    (gd : GestureData) (s2 : IState)
    (hok : GI0.process s mh = .ok (gd, s2)) (ht : gd.type = some .pinch) :
    gd.delta.x = 0 ∧ gd.delta.y = 0 ∧
    (getMovementDelta s2.history 8).map Point3.y = some gd.delta.z := by
  rcases process0_ok_spec s mh gd s2 hok with ⟨_, h, _, _, _⟩ |
    ⟨lm, rest, rd, _, _, _, hbr⟩
  · rw [h] at ht; cases ht
  · rcases hbr with ⟨h, _⟩ | ⟨h, _⟩ | ⟨d8, _, hmv8, _, hdelta, _⟩ | ⟨h, _⟩
    · rw [h] at ht; cases ht
    · rw [h] at ht; simp at ht
    · rw [hdelta, hmv8]; exact ⟨rfl, rfl, rfl⟩
    · rw [h] at ht; simp at ht

/-- The frame of the C10 witness: thumb tip and index tip coincident near
the wrist. -/
def c10f : Frame :=
  mkFrame ⟨0, 0, 0⟩ ⟨1/10, 0, 0⟩ ⟨1/10, 0, 0⟩ ⟨1/10, 0, 0⟩ ⟨1/10, 0, 0⟩

/-- Witness for C10: a concrete pinch-classified call. -/
theorem C10_pinch_delta_witness :
    (⟨some .pinch, ⟨0, 0, 0⟩, 0⟩ : GestureData).delta.x = 0 ∧
    (⟨some .pinch, ⟨0, 0, 0⟩, 0⟩ : GestureData).delta.y = 0 ∧
    (getMovementDelta (⟨[c10f], applySmoothing ⟨0, 0, 0⟩ ⟨0, 0, 0⟩⟩ :
        IState).history 8).map Point3.y =
      some (⟨some .pinch, ⟨0, 0, 0⟩, 0⟩ : GestureData).delta.z :=
  C10_pinch_delta initIState (some [c10f]) ⟨some .pinch, ⟨0, 0, 0⟩, 0⟩
    ⟨[c10f], applySmoothing ⟨0, 0, 0⟩ ⟨0, 0, 0⟩⟩
    (by norm_num [GI0.process, trimPush, getMovementDelta, getDistSq, mkFrame,
      c10f, initIState]) rfl

/-- The frame of the first call of the C4 counterexample: thumb tip and
index tip coincident (a pinch pose). -/
def c4f1 : Frame :=
  mkFrame ⟨0, 0, 0⟩ ⟨1/10, 0, 0⟩ ⟨1/10, 0, 0⟩ ⟨1/10, 0, 0⟩ ⟨1/10, 0, 0⟩

/-- The frame of the second call of the C4 counterexample: the same pinch
pose translated by (1/10, 0). -/
def c4f2 : Frame :=
  mkFrame ⟨1/10, 0, 0⟩ ⟨1/5, 0, 0⟩ ⟨1/5, 0, 0⟩ ⟨1/5, 0, 0⟩ ⟨1/5, 0, 0⟩

/-- C4 counterexample: a frame classified pinch updates the smoothed
vector to (1/20, 0, 0) but returns delta (0, 0, 0) - the returned delta
is the raw index-tip difference reshaped, not the updated smoothed
vector, refuting the claim for pinch. -/
theorem C4_counterexample :
    GI2.process initIState (some [c4f1]) =
      .ok (⟨some .pinch, ⟨0, 0, 0⟩, 0⟩, ⟨[c4f1], ⟨0, 0, 0⟩⟩) ∧
    GI2.process ⟨[c4f1], ⟨0, 0, 0⟩⟩ (some [c4f2]) =
      .ok (⟨some .pinch, ⟨0, 0, 0⟩, 1/100⟩, ⟨[c4f1, c4f2], ⟨1/20, 0, 0⟩⟩) ∧
    (⟨0, 0, 0⟩ : Point3) ≠ ⟨1/20, 0, 0⟩ := by
  refine ⟨?_, ?_, by simp⟩ <;>
    norm_num [GI2.process, trimPush, getMovementDelta, getDistSq,
      applySmoothing, smoothing, mkFrame, c4f1, c4f2, initIState]

/-- C4 amended: for every ok frame classified pinch, pan or rotate the
persistent smoothed vector is updated by applySmoothing, which is
exactly smoothed * (1 - a) + raw * a per axis with a = 1/2, the raw
input being the index-tip (landmark 8) finite difference for pinch and
the wrist (landmark 0) finite difference for pan and rotate; the delta
returned in the event equals the updated smoothed vector for pan and
rotate, but for pinch the returned delta is (0, 0, raw.y), not the
smoothed vector. -/
theorem C4_amended (s : IState) (mh : Option (List Frame)) (gd : GestureData)
    (s2 : IState) (hok : GI2.process s mh = .ok (gd, s2)) :
    (gd.type = some .pinch →
      (getMovementDelta s2.history 8).map (applySmoothing s.smoothedDeltas) =
        some s2.smoothedDeltas ∧
      (getMovementDelta s2.history 8).map (fun d => (⟨0, 0, d.y⟩ : Point3)) =
        some gd.delta) ∧
    ((gd.type = some .pan ∨ gd.type = some .rotate) →
      (getMovementDelta s2.history 0).map (applySmoothing s.smoothedDeltas) =
        some s2.smoothedDeltas ∧ gd.delta = s2.smoothedDeltas) := by
  rcases process2_ok_spec s mh gd s2 hok with ⟨_, ht, _, _, _⟩ |
    ⟨lm, rest, rd, _, _, hmv, hbr⟩
  · constructor
    · intro h0; rw [ht] at h0; cases h0
    · intro h0; rcases h0 with h0 | h0 <;> rw [ht] at h0 <;> cases h0
  · rcases hbr with ⟨ht, _, _, _⟩ | ⟨d8, ht, hmv8, _, hdelta, hsm⟩ |
      ⟨ht, _, hdelta, hsm⟩
    · constructor
      · intro h0; rw [ht] at h0; cases h0
      · intro h0; rcases h0 with h0 | h0 <;> rw [ht] at h0 <;> cases h0
    · constructor
      · intro _
        rw [hmv8, hdelta, hsm]
        exact ⟨rfl, rfl⟩
      · intro h0
        rcases h0 with h0 | h0 <;> rw [ht] at h0 <;> simp at h0
    · constructor
      · intro h0
        rcases ht with ht | ht <;> rw [ht] at h0 <;> simp at h0
      · intro _
        rw [hmv, hdelta, hsm]
        exact ⟨rfl, rfl⟩

/-- Witness for C4 amended: the pinch call of the C4 counterexample. -/
theorem C4_amended_witness :
    ((⟨some .pinch, ⟨0, 0, 0⟩, 1/100⟩ : GestureData).type = some .pinch →
      (getMovementDelta (⟨[c4f1, c4f2], ⟨1/20, 0, 0⟩⟩ : IState).history 8).map
          (applySmoothing (⟨[c4f1], ⟨0, 0, 0⟩⟩ : IState).smoothedDeltas) =
        some (⟨[c4f1, c4f2], ⟨1/20, 0, 0⟩⟩ : IState).smoothedDeltas ∧
      (getMovementDelta (⟨[c4f1, c4f2], ⟨1/20, 0, 0⟩⟩ : IState).history 8).map
          (fun d => (⟨0, 0, d.y⟩ : Point3)) =
        some (⟨some .pinch, ⟨0, 0, 0⟩, 1/100⟩ : GestureData).delta) ∧
    (((⟨some .pinch, ⟨0, 0, 0⟩, 1/100⟩ : GestureData).type = some .pan ∨
      (⟨some .pinch, ⟨0, 0, 0⟩, 1/100⟩ : GestureData).type = some .rotate) →
      (getMovementDelta (⟨[c4f1, c4f2], ⟨1/20, 0, 0⟩⟩ : IState).history 0).map
          (applySmoothing (⟨[c4f1], ⟨0, 0, 0⟩⟩ : IState).smoothedDeltas) =
        some (⟨[c4f1, c4f2], ⟨1/20, 0, 0⟩⟩ : IState).smoothedDeltas ∧
      (⟨some .pinch, ⟨0, 0, 0⟩, 1/100⟩ : GestureData).delta =
        (⟨[c4f1, c4f2], ⟨1/20, 0, 0⟩⟩ : IState).smoothedDeltas) :=
  C4_amended ⟨[c4f1], ⟨0, 0, 0⟩⟩ (some [c4f2]) ⟨some .pinch, ⟨0, 0, 0⟩, 1/100⟩
    ⟨[c4f1, c4f2], ⟨1/20, 0, 0⟩⟩
    (by norm_num [GI2.process, trimPush, getMovementDelta, getDistSq,
      applySmoothing, smoothing, mkFrame, c4f1, c4f2])

/-- The open-palm frame of the first C5 counterexample call, wrist at the
origin. -/
def c5fa : Frame :=
  mkFrame ⟨0, 0, 0⟩ ⟨0, 0, 0⟩ ⟨1/2, 0, 0⟩ ⟨0, 1/2, 0⟩ ⟨1/2, 1/2, 0⟩

/-- The same open palm translated by (1/10, 0): the frame processed by
both the second and the third call. -/
def c5fb : Frame :=
  mkFrame ⟨1/10, 0, 0⟩ ⟨1/10, 0, 0⟩ ⟨3/5, 0, 0⟩ ⟨1/10, 1/2, 0⟩ ⟨3/5, 1/2, 0⟩

/-- C5 counterexample: two consecutive calls on the identical open-palm
frame.  The second of the two identical calls returns velocity 0 but
delta (1/40, 0, 0), not (0, 0, 0): the rotate branch returns the decayed
smoothed vector, which is nonzero because of earlier motion.  The first
conjunct shows the starting state is reached by a rotate call that moved
the wrist by (1/10, 0). -/
theorem C5_counterexample :
    GI0.process ⟨[c5fa], ⟨0, 0, 0⟩⟩ (some [c5fb]) =
      .ok (⟨some .rotate, ⟨1/20, 0, 0⟩, 1/100⟩, ⟨[c5fa, c5fb], ⟨1/20, 0, 0⟩⟩) ∧
    GI0.process ⟨[c5fa, c5fb], ⟨1/20, 0, 0⟩⟩ (some [c5fb]) =
      .ok (⟨some .rotate, ⟨1/40, 0, 0⟩, 0⟩,
           ⟨[c5fa, c5fb, c5fb], ⟨1/40, 0, 0⟩⟩) ∧
    (⟨1/40, 0, 0⟩ : Point3) ≠ ⟨0, 0, 0⟩ := by
  refine ⟨?_, ?_, by simp⟩ <;>
    norm_num [GI0.process, trimPush, getMovementDelta, getDistSq,
      applySmoothing, smoothing, mkFrame, c5fa, c5fb]

/-- C5 amended: after two consecutive ok calls on the identical frame the
second call always returns velocity 0, and it returns delta (0, 0, 0)
provided the smoothed vector was zero before the second call; in general
a pan or rotate frame returns the previous smoothed vector decayed by
the factor 1 - a, which need not be zero. -/
theorem C5_amended (s s1 s2 : IState) (f : Frame) (r1 r2 : List Frame)
    (gd1 gd2 : GestureData)
    (h1 : GI0.process s (some (f :: r1)) = .ok (gd1, s1))
    (h2 : GI0.process s1 (some (f :: r2)) = .ok (gd2, s2)) :
    gd2.velocitySq = 0 ∧
    (s1.smoothedDeltas = ⟨0, 0, 0⟩ → gd2.delta = ⟨0, 0, 0⟩) := by
  have hh1 : s1.history = trimPush s.history f := by
    rcases process0_ok_spec s _ gd1 s1 h1 with ⟨habs, _⟩ |
      ⟨lm, rest, _, hmh, hh, _, _⟩
    · rcases habs with h | h <;> simp at h
    · injection hmh with hmh
      injection hmh with hlm _
      rw [hh, ← hlm]
  obtain ⟨pre, hpre⟩ := trimPush_eq_append s.history f
  have hh2 : s2.history = trimPush s1.history f := by
    rcases process0_ok_spec s1 _ gd2 s2 h2 with ⟨habs, _⟩ |
      ⟨lm, rest, _, hmh, hh, _, _⟩
    · rcases habs with h | h <;> simp at h
    · injection hmh with hmh
      injection hmh with hlm _
      rw [hh, ← hlm]
  obtain ⟨pre2, hpre2⟩ : ∃ pre2, s2.history = pre2 ++ [f, f] := by
    rw [hh2, hh1, hpre]
    exact trimPush_pair pre f
  rcases process0_ok_spec s1 _ gd2 s2 h2 with ⟨habs, _⟩ |
    ⟨lm, rest, rd, hmh, _, hmv, hbr⟩
  · rcases habs with h | h <;> simp at h
  · have hrd : rd = ⟨0, 0, 0⟩ :=
      getMovementDelta_pair pre2 f 0 rd (by rw [← hpre2]; exact hmv)
    rcases hbr with ⟨_, hv, hd, _⟩ | ⟨_, hv, hd, _⟩ |
      ⟨d8, _, hmv8, hv, hd, _⟩ | ⟨_, hv, hd, _⟩
    · exact ⟨hv, fun _ => hd⟩
    · refine ⟨by rw [hv, hrd]; norm_num, fun _ => hd⟩
    · have hd8 : d8 = ⟨0, 0, 0⟩ :=
        getMovementDelta_pair pre2 f 8 d8 (by rw [← hpre2]; exact hmv8)
      refine ⟨by rw [hv, hrd]; norm_num, fun _ => ?_⟩
      rw [hd, hd8]
    · refine ⟨by rw [hv, hrd]; norm_num, fun hz => ?_⟩
      rw [hd, hrd, hz]
      norm_num [applySmoothing, smoothing]

/-- Witness for C5 amended: the two identical rotate calls of the C5
counterexample run. -/
theorem C5_amended_witness :
    (⟨some .rotate, ⟨1/40, 0, 0⟩, 0⟩ : GestureData).velocitySq = 0 ∧
    ((⟨[c5fa, c5fb], ⟨1/20, 0, 0⟩⟩ : IState).smoothedDeltas = ⟨0, 0, 0⟩ →
      (⟨some .rotate, ⟨1/40, 0, 0⟩, 0⟩ : GestureData).delta = ⟨0, 0, 0⟩) :=
  C5_amended ⟨[c5fa], ⟨0, 0, 0⟩⟩ ⟨[c5fa, c5fb], ⟨1/20, 0, 0⟩⟩
    ⟨[c5fa, c5fb, c5fb], ⟨1/40, 0, 0⟩⟩ c5fb [] []
    ⟨some .rotate, ⟨1/20, 0, 0⟩, 1/100⟩ ⟨some .rotate, ⟨1/40, 0, 0⟩, 0⟩
    (by norm_num [GI0.process, trimPush, getMovementDelta, getDistSq,
      applySmoothing, smoothing, mkFrame, c5fa, c5fb])
    (by norm_num [GI0.process, trimPush, getMovementDelta, getDistSq,
      applySmoothing, smoothing, mkFrame, c5fa, c5fb])

/-- The C6 counterexample frame: thumb tip and index tip coincident at
(1/2, 0), far from the wrist at the origin, with middle and ring tips
curled at (1/10, 0). -/
def c6f : Frame :=
  mkFrame ⟨0, 0, 0⟩ ⟨1/2, 0, 0⟩ ⟨1/2, 0, 0⟩ ⟨1/10, 0, 0⟩ ⟨1/10, 0, 0⟩

/-- C6 counterexample: a frame with thumb tip and index tip coincident
(squared pinch distance 0) and curled middle and ring fingers is
classified point, not pinch, because the index tip is far from the wrist
and the point branch runs first - refuting the claim that such a frame
is classified pinch for every index-to-wrist distance. -/
theorem C6_counterexample :
    getDistSq ⟨1/2, 0, 0⟩ ⟨1/2, 0, 0⟩ = 0 ∧
    getDistSq ⟨1/10, 0, 0⟩ ⟨0, 0, 0⟩ < 1/16 ∧
    GI0.process initIState (some [c6f]) =
      .ok (⟨some .point, ⟨0, 0, 0⟩, 0⟩, ⟨[c6f], ⟨0, 0, 0⟩⟩) := by
  refine ⟨by norm_num [getDistSq], by norm_num [getDistSq], ?_⟩
  norm_num [GI0.process, trimPush, getMovementDelta, getDistSq, mkFrame,
    c6f, initIState]

/-- C6 amended: for every ok call on a frame whose thumb tip and index
tip coincide in 2D and whose middle and ring tips are curled (squared
wrist distance below 1/16), the classification is pinch exactly when the
point predicate fails, that is when the squared index-to-wrist distance
is at most 4/25; when it exceeds 4/25 the frame is classified point,
which has priority. -/
theorem C6_amended (s : IState) (rest : List Frame) (lm : Frame)
    (t i m r w : Point3) (gd : GestureData) (s2 : IState)
    (h4 : lm[4]? = some t) (h8 : lm[8]? = some i)
    (h12 : lm[12]? = some m) (h16 : lm[16]? = some r)
    (h0 : lm[0]? = some w)
    (hx : t.x = i.x) (hy : t.y = i.y)
    (hm : getDistSq m w < 1/16) (hr : getDistSq r w < 1/16)
    (hok : GI0.process s (some (lm :: rest)) = .ok (gd, s2)) :
    gd.type = if getDistSq i w > 4/25 then some GestureType.point
              else some GestureType.pinch := by
  have hpinch0 : getDistSq t i = 0 := by simp [getDistSq, hx, hy]
  simp only [GI0.process, h4, h8, h12, h16, h0] at hok
  split at hok
  case _ rawDelta hmv =>
    by_cases hpt : getDistSq i w > 4/25
    · rw [if_pos hpt]
      rw [if_pos ⟨hpt, hm, hr⟩] at hok
      injection hok with h
      injection h with hgd _
      rw [← hgd]
    · rw [if_neg hpt]
      rw [if_neg (fun hc => hpt hc.1)] at hok
      rw [if_pos (by rw [hpinch0]; norm_num)] at hok
      split at hok
      case _ d8 hmv8 =>
        injection hok with h
        injection h with hgd _
        rw [← hgd]
      case _ hmv8 => exact absurd hok (by simp)
  case _ hmv => exact absurd hok (by simp)

/-- The frame of the C6 amended witness: thumb and index tips coincident
close to the wrist. -/
def c6wf : Frame :=
  mkFrame ⟨0, 0, 0⟩ ⟨1/10, 0, 0⟩ ⟨1/10, 0, 0⟩ ⟨1/10, 0, 0⟩ ⟨1/10, 0, 0⟩

/-- Witness for C6 amended: a coincident-tips frame with the index tip
close to the wrist, classified pinch. -/
theorem C6_amended_witness :
    (⟨some .pinch, ⟨0, 0, 0⟩, 0⟩ : GestureData).type =
      if getDistSq ⟨1/10, 0, 0⟩ ⟨0, 0, 0⟩ > 4/25 then some GestureType.point
      else some GestureType.pinch :=
  C6_amended initIState [] c6wf ⟨1/10, 0, 0⟩ ⟨1/10, 0, 0⟩ ⟨1/10, 0, 0⟩
    ⟨1/10, 0, 0⟩ ⟨0, 0, 0⟩ ⟨some .pinch, ⟨0, 0, 0⟩, 0⟩
    ⟨[c6wf], applySmoothing ⟨0, 0, 0⟩ ⟨0, 0, 0⟩⟩
    rfl rfl rfl rfl rfl rfl rfl
    (by norm_num [getDistSq]) (by norm_num [getDistSq])
    (by norm_num [GI0.process, trimPush, getMovementDelta, getDistSq,
      mkFrame, c6wf, initIState])

/-- updateSelection on a ray miss leaves the selection untouched. -/
theorem updateSelection_miss_selected (s : App.AppState) (now : Int) :
    (App.updateSelection s none now).selectedPlanet = s.selectedPlanet := rfl

/-- updateSelection never clears the selection: when a planet was
selected before, some planet (possibly another one) is selected after. -/
theorem updateSelection_keeps_some (s : App.AppState) (rayHit : Option Nat)
    (now : Int) (p : Nat) (hsel : s.selectedPlanet = some p) :
    ((App.updateSelection s rayHit now).selectedPlanet = some p ∨
      ∃ q, rayHit = some q ∧
        (App.updateSelection s rayHit now).selectedPlanet = some q) := by
  rcases rayHit with _ | planet
  · left; rw [updateSelection_miss_selected]; exact hsel
  · simp only [App.updateSelection]
    split
    · left; exact hsel
    · split
      · right; exact ⟨planet, rfl, rfl⟩
      · left; exact hsel

/-- The Hovering state of the C7 counterexample: planet 0 hovered since
time 0, nothing selected. -/
def c7state : App.AppState := ⟨some 0, 0, none, 5/2, true, true⟩

/-- C7 counterexample: hovering the same planet with an elapsed hover
time of exactly 1200 ms does not focus it - the code requires the dwell
time to strictly exceed 1200 - refuting the claim that the transition
fires at exactly the threshold. -/
theorem C7_counterexample :
    (App.updateSelection c7state (some 0) 1200).selectedPlanet = none := by
  norm_num [App.updateSelection, c7state]

/-- C7 amended: with the same planet hovered on consecutive frames and
not already selected, the frame focuses it exactly when the elapsed
hover time strictly exceeds 1200 ms; at exactly 1200 ms, and one
millisecond short of it, no transition happens. -/
theorem C7_amended (s : App.AppState) (p : Nat) (now : Int)
    (hh : s.hoveredPlanet = some p) (hs : s.selectedPlanet ≠ some p) :
    ((App.updateSelection s (some p) now).selectedPlanet = some p ↔
      now - s.hoverStartTime > 1200) := by
  simp only [App.updateSelection, hh]
  by_cases hdwell : now - s.hoverStartTime > 1200
  · simp [hdwell, hs, App.focusOnPlanet]
  · simp [hdwell, hs]

/-- Witness for C7 amended: at 1201 ms of hover the planet is focused. -/
theorem C7_amended_witness :
    ((App.updateSelection ⟨some 0, 0, none, 5/2, true, true⟩
        (some 0) 1201).selectedPlanet = some 0 ↔ (1201 : Int) - 0 > 1200) :=
  C7_amended ⟨some 0, 0, none, 5/2, true, true⟩ 0 1201 rfl
    (fun h => Option.noConfusion h)

/-- The Focused state of the C8 counterexample: planet 3 selected. -/
def c8state : App.AppState := ⟨none, 0, some 3, 1/50, false, true⟩

/-- The pan event of the C8 counterexample: a slow pan with a nonzero
delta. -/
def c8data : GestureData := ⟨some .pan, ⟨1, 1, 0⟩, 0⟩

/-- C8 counterexample: with planet 3 selected, a pan frame still issues
the camera translation command, and its target differs from the current
camera position - refuting the claim that pan is suppressed while a
target is selected. -/
theorem C8_counterexample :
    c8state.selectedPlanet = some 3 ∧
    (App.handleGestures c8state ⟨0, 0, 0⟩ 1 c8data none 0).2.panCmd =
      some (-1000, 1000) ∧
    ((-1000 : ℚ), (1000 : ℚ)) ≠ ((0 : ℚ), (0 : ℚ)) := by
  refine ⟨rfl, ?_, by norm_num⟩
  norm_num [App.handleGestures, App.updateSelection, App.noEffects,
    c8state, c8data]

/-- C8 amended: a pan frame always issues the camera translation command
with target (cam.x - delta.x * distFactor * 1000,
cam.y + delta.y * distFactor * 1000), whether or not a planet is
selected; only the rotate orbit is suppressed while a target is
selected (a fast pan additionally exits focus rather than being
suppressed). -/
theorem C8_amended (s : App.AppState) (cam : Point3) (df : ℚ)
    (d : GestureData) (rayHit : Option Nat) (now : Int)
    (hp : d.type = some .pan) :
    (App.handleGestures s cam df d rayHit now).2.panCmd =
      some (cam.x + -d.delta.x * df * 1000, cam.y + d.delta.y * df * 1000) := by
  simp only [App.handleGestures, hp]

/-- Witness for C8 amended at the counterexample inputs. -/
theorem C8_amended_witness :
    (App.handleGestures c8state ⟨0, 0, 0⟩ 1 c8data none 0).2.panCmd =
      some ((0 : ℚ) + -c8data.delta.x * 1 * 1000,
            (0 : ℚ) + c8data.delta.y * 1 * 1000) :=
  C8_amended c8state ⟨0, 0, 0⟩ 1 c8data none 0 rfl

/-- C9: once a planet is Focused it stays selected: a hand frame can
only clear the selection (set it to none) when the gesture is a
disqualifier - a pinch with delta.z above 1/20 or a pan with squared
velocity above 1/100; a ray-miss frame whose gesture is not a
disqualifier leaves the selected planet unchanged; a frame with no
detected hand leaves it unchanged; and the explicit exit action clears
it. -/
theorem C9_focus_persistence (s : App.AppState) (p : Nat) (d : GestureData)
    (rayHit : Option Nat) (now : Int) (cam : Point3) (df : ℚ)
    (hsel : s.selectedPlanet = some p) :
    ((App.handleResults s (.hands d rayHit now cam df)).1.selectedPlanet =
        none → App.disqualifier d) ∧
    (rayHit = none → ¬ App.disqualifier d →
      (App.handleResults s
          (.hands d rayHit now cam df)).1.selectedPlanet = some p) ∧
    (App.handleResults s .noHands).1.selectedPlanet = some p ∧
    (App.exitFocus s).selectedPlanet = none := by
  have hkeep := updateSelection_keeps_some s rayHit now p hsel
  refine ⟨?_, ?_, hsel, rfl⟩
  · intro hnone
    rcases hd : d.type with _ | g
    · simp only [App.handleResults, App.handleGestures, hd] at hnone
      rcases hkeep with h | ⟨q, _, h⟩ <;> rw [h] at hnone <;> cases hnone
    · cases g
      · simp only [App.handleResults, App.handleGestures, hd] at hnone
        split at hnone
        · next hc => exact Or.inl ⟨hd, hc.1⟩
        · rcases hkeep with h | ⟨q, _, h⟩ <;> rw [h] at hnone <;> cases hnone
      · simp only [App.handleResults, App.handleGestures, hd] at hnone
        split at hnone
        · next hc => exact Or.inr ⟨hd, hc.1⟩
        · rcases hkeep with h | ⟨q, _, h⟩ <;> rw [h] at hnone <;> cases hnone
      · simp only [App.handleResults, App.handleGestures, hd] at hnone
        split at hnone <;>
          rcases hkeep with h | ⟨q, _, h⟩ <;> rw [h] at hnone <;> cases hnone
      · simp only [App.handleResults, App.handleGestures, hd] at hnone
        rcases hkeep with h | ⟨q, _, h⟩ <;> rw [h] at hnone <;> cases hnone
  · intro hmiss hnd
    subst hmiss
    have hs1 : (App.updateSelection s none now).selectedPlanet = some p := by
      rw [updateSelection_miss_selected]; exact hsel
    rcases hd : d.type with _ | g
    · simp only [App.handleResults, App.handleGestures, hd]
      exact hs1
    · cases g
      · simp only [App.handleResults, App.handleGestures, hd]
        rw [if_neg (fun hc => hnd (Or.inl ⟨hd, hc.1⟩))]
        exact hs1
      · simp only [App.handleResults, App.handleGestures, hd]
        rw [if_neg (fun hc => hnd (Or.inr ⟨hd, hc.1⟩))]
        exact hs1
      · simp only [App.handleResults, App.handleGestures, hd]
        split <;> exact hs1
      · simp only [App.handleResults, App.handleGestures, hd]
        exact hs1

/-- The Focused state of the C9 witness. -/
def c9state : App.AppState := ⟨none, 0, some 2, 1/50, false, true⟩

/-- The harmless event of the C9 witness: a ray-miss rotate frame. -/
def c9data : GestureData := ⟨some .rotate, ⟨1, 0, 0⟩, 1⟩

/-- Witness for C9 at concrete inputs: a rotate frame with a ray miss
keeps planet 2 selected, hand loss keeps it selected, and the explicit
exit clears it. -/
theorem C9_focus_persistence_witness :
    ((App.handleResults c9state
        (.hands c9data none 0 ⟨0, 0, 0⟩ 1)).1.selectedPlanet = none →
      App.disqualifier c9data) ∧
    ((none : Option Nat) = none → ¬ App.disqualifier c9data →
      (App.handleResults c9state
          (.hands c9data none 0 ⟨0, 0, 0⟩ 1)).1.selectedPlanet = some 2) ∧
    (App.handleResults c9state .noHands).1.selectedPlanet = some 2 ∧
    (App.exitFocus c9state).selectedPlanet = none :=
  C9_focus_persistence c9state 2 c9data none 0 ⟨0, 0, 0⟩ 1 rfl
